import Mathlib

/-!
# Guardian capture-to-analysis pipeline: verification of the spec's claims

A shallow embedding of the concurrency-relevant parts of the Guardian
repository (`src/`): the per-stream Analysis Workers (`AudioTranscriber`,
`ScreenAnalyzer`, `KeyboardAnalyzer`), the Capture Producers
(`ScreenCapture`, `KeyboardRecorder`), the `PowerMonitor` event source,
the `TaskScheduler`, and the `Assistant` orchestrator in `main.py`.

Threads are modelled by interleaving: each loop iteration of a worker or
producer is one deterministic step on an explicit state record, and calls
arriving from other threads (enqueues, `stop()`) are separate events that
may be interleaved with the loop's steps.
-/

namespace Guardian

/-- Artifacts (audio chunks, screenshots, keyboard logs) are referenced by
file path in the source; paths are abstracted to numeric identifiers. -/
abbrev Item := Nat

/-! ## Analysis Worker (`AudioTranscriber._worker`, `ScreenAnalyzer._worker`)

Source shape (`src/audio/transcriber.py` lines 32-47, `src/screen/analyzer.py`
lines 45-70):

```
while self._is_running or not self._queue.empty():
    try:
        path = self._queue.get(timeout=1.0)
        result = client.analyze(path)          # transcribe_audio / analyze_image
        self._save(path, result)               # append to the day's aggregate file
        self._queue.task_done()
    except queue.Empty:
        continue
    except Exception as e:
        self.logger.error(...)                 # item dropped, loop continues
```

The outcome of the analysis call plus the save for one item is abstracted
by a function `analyze : Item → Except String String`: `.ok r` appends the
line `r` to the day's aggregate file, `.error e` means the exception
handler logged `e` and the item was dropped. -/

/-- State of one Analysis Worker object together with its worker thread. -/
structure WorkerState where
  /-- `self._is_running` -/
  is_running : Bool
  /-- `self._queue`, FIFO front first -/
  queue : List Item
  /-- lines appended so far to the day's aggregate file -/
  aggregate : List String
  /-- error log entries -/
  log : List String
  /-- the worker thread has left the `while` loop -/
  exited : Bool
  /-- number of worker threads ever spawned -/
  threads : Nat
deriving DecidableEq, Repr

/-- One iteration of the worker loop: re-check the loop condition
`self._is_running or not self._queue.empty()`; if it holds, dequeue
(head of the FIFO, or a `queue.Empty` timeout no-op when empty) and
process; otherwise the thread exits. After exit the step does nothing. -/
def workerTick (analyze : Item → Except String String) (s : WorkerState) :
    WorkerState :=
  if s.exited then s
  else if s.is_running || !s.queue.isEmpty then
    match s.queue with
    | [] => s
    | x :: xs =>
      match analyze x with
      | Except.ok r => { s with queue := xs, aggregate := s.aggregate ++ [r] }
      | Except.error e => { s with queue := xs, log := s.log ++ [e] }
  else { s with exited := true }

/-- `add_to_queue`: `self._queue.put(path)` — never blocks, never fails. -/
def add_to_queue (s : WorkerState) (x : Item) : WorkerState :=
  { s with queue := s.queue ++ [x] }

/-- `AudioTranscriber.start` / `ScreenAnalyzer.start`: no-op when already
running, otherwise set the flag and spawn a fresh worker thread. -/
def workerStart (s : WorkerState) : WorkerState :=
  if s.is_running then s
  else { s with is_running := true, exited := false, threads := s.threads + 1 }

/-- `AudioTranscriber.stop` / `ScreenAnalyzer.stop`: clear `_is_running`;
the join with its timeout is modelled by subsequently running the worker's
own ticks until it exits. -/
def workerStop (s : WorkerState) : WorkerState :=
  { s with is_running := false }

/-- An event interleaved with the worker thread: one loop iteration of the
worker itself, or an enqueue arriving from a producer thread. -/
inductive WEv where
  | tick
  | enq (x : Item)
deriving DecidableEq, Repr

/-- Run the worker under an interleaving of loop iterations and enqueues. -/
def workerRun (analyze : Item → Except String String) (s : WorkerState)
    (evs : List WEv) : WorkerState :=
  evs.foldl
    (fun s e =>
      match e with
      | WEv.tick => workerTick analyze s
      | WEv.enq x => add_to_queue s x)
    s

/-- The results the analysis succeeds on, in queue order. -/
def analysisOks (analyze : Item → Except String String) (l : List Item) :
    List String :=
  l.filterMap (fun x => (analyze x).toOption)

/-- The error messages of the items the analysis fails on, in queue order. -/
def analysisErrs (analyze : Item → Except String String) (l : List Item) :
    List String :=
  l.filterMap (fun x =>
    match analyze x with
    | Except.ok _ => none
    | Except.error e => some e)

theorem workerRun_append (analyze : Item → Except String String)
    (s : WorkerState) (evs evs' : List WEv) :
    workerRun analyze s (evs ++ evs') =
      workerRun analyze (workerRun analyze s evs) evs' := by
  simp [workerRun, List.foldl_append]

/-- Core drain lemma: with the worker loop live, running one tick per queued
item consumes the whole queue in FIFO order, appending exactly the successful
results to the aggregate and exactly the failures to the log. Holds whatever
`is_running` is, since the loop condition is true while the queue is
non-empty. -/
theorem workerRun_ticks_processes_queue
    (analyze : Item → Except String String) :
    ∀ (l : List Item) (s : WorkerState),
      s.exited = false → s.queue = l →
      workerRun analyze s (List.replicate l.length WEv.tick) =
        { s with queue := [],
                 aggregate := s.aggregate ++ analysisOks analyze l,
                 log := s.log ++ analysisErrs analyze l } := by
  intro l
  induction l with
  | nil =>
    intro s hex hq
    cases s
    simp_all [workerRun, analysisOks, analysisErrs]
  | cons x xs ih =>
    intro s hex hq
    have hstep :
        workerTick analyze s =
          match analyze x with
          | Except.ok r => { s with queue := xs, aggregate := s.aggregate ++ [r] }
          | Except.error e => { s with queue := xs, log := s.log ++ [e] } := by
      simp [workerTick, hex, hq]
    rw [List.length_cons, List.replicate_succ]
    show workerRun analyze (workerTick analyze s) (List.replicate xs.length WEv.tick) = _
    cases hax : analyze x with
    | ok r =>
      rw [hstep, hax]
      rw [ih { s with queue := xs, aggregate := s.aggregate ++ [r] } hex rfl]
      simp [analysisOks, analysisErrs, List.filterMap_cons, hax, Except.toOption]
    | error e =>
      rw [hstep, hax]
      rw [ih { s with queue := xs, log := s.log ++ [e] } hex rfl]
      simp [analysisOks, analysisErrs, List.filterMap_cons, hax, Except.toOption]

/-- A concrete analysis outcome used for counterexamples: every item
succeeds, the aggregate line being the item's decimal name. -/
def analyzeShow : Item → Except String String := fun x => Except.ok (Nat.repr x)

/-- A worker on which `stop()` has just been called (`_is_running` already
false, the loop still live) with one item left in the queue. -/
def stoppedWorker1 : WorkerState :=
  { is_running := false, queue := [1], aggregate := [], log := [],
    exited := false, threads := 1 }

/-- C1 (counterexample): an item enqueued *after* `stop()` was called can
still be processed. With `stop()` already done (`_is_running = false`) and
item 1 queued, the interleaving «worker processes 1; producer enqueues 2;
worker iterates again» leaves the loop condition
`self._is_running or not self._queue.empty()` true, so item 2 — enqueued
after `stop()` — is analyzed and appended to the aggregate, refuting
"any item enqueued after stop() was called is not processed". -/
theorem worker_processes_item_enqueued_after_stop :
    (workerRun analyzeShow stoppedWorker1
        [WEv.tick, WEv.enq 2, WEv.tick]).aggregate
      = [Nat.repr 1, Nat.repr 2] := by
  rfl

/-- C1 (amended): after `stop()` clears `_is_running`, running one loop
iteration per queued item plus one final iteration drains the whole queue —
every already-enqueued item is processed (successes appended to the day's
aggregate, failures logged) — and then the worker thread exits; once the
loop has exited, no further item is ever processed. (Items enqueued after
`stop()` but before the drain completes are also processed, per the
counterexample.) -/
theorem worker_stop_drains_all_enqueued_items
    (analyze : Item → Except String String) (s : WorkerState)
    (hex : s.exited = false) :
    workerRun analyze (workerStop s)
        (List.replicate (s.queue.length + 1) WEv.tick) =
      { is_running := false, queue := [],
        aggregate := s.aggregate ++ analysisOks analyze s.queue,
        log := s.log ++ analysisErrs analyze s.queue,
        exited := true, threads := s.threads } ∧
    (∀ s₂ : WorkerState, s₂.exited = true → workerTick analyze s₂ = s₂) := by
  constructor
  · have h1 := workerRun_ticks_processes_queue analyze s.queue (workerStop s)
      (by simpa [workerStop] using hex) (by simp [workerStop])
    rw [List.replicate_succ', workerRun_append, h1]
    simp [workerRun, workerTick, workerStop, hex]
  · intro s₂ h
    simp [workerTick, h]

/-- Witness for C1 (amended): a stopped worker holding items 1 and 2 drains
both, appends both results, and exits after three loop iterations. -/
theorem worker_stop_drains_all_enqueued_items_witness :
    ({ is_running := true, queue := [1, 2], aggregate := [], log := [],
       exited := false, threads := 1 } : WorkerState).exited = false ∧
    workerRun analyzeShow
        (workerStop { is_running := true, queue := [1, 2], aggregate := [],
                      log := [], exited := false, threads := 1 })
        (List.replicate 3 WEv.tick) =
      { is_running := false, queue := [],
        aggregate := [Nat.repr 1, Nat.repr 2], log := [],
        exited := true, threads := 1 } :=
  ⟨rfl, by
    have h := (worker_stop_drains_all_enqueued_items analyzeShow
      { is_running := true, queue := [1, 2], aggregate := [], log := [],
        exited := false, threads := 1 } rfl).1
    simpa [analysisOks, analysisErrs, analyzeShow] using h⟩

/-- An analysis outcome where artifact 3 raises an `AnalysisError` and every
other artifact succeeds. -/
def analyzeFail3 : Item → Except String String := fun x =>
  if x = 3 then Except.error "AnalysisError: artifact 3"
  else Except.ok (Nat.repr x)

/-- C5: an exception on one artifact is logged and the artifact permanently
dropped (it is never requeued: the final queue is empty and each item is
consumed exactly once), while the loop continues: the final aggregate file
holds exactly the successful results, in queue order, and the log exactly
the failures. -/
theorem worker_exception_isolated_per_item
    (analyze : Item → Except String String) (s : WorkerState)
    (hex : s.exited = false) :
    (workerRun analyze s (List.replicate s.queue.length WEv.tick)).queue
        = [] ∧
    (workerRun analyze s (List.replicate s.queue.length WEv.tick)).aggregate
        = s.aggregate ++ analysisOks analyze s.queue ∧
    (workerRun analyze s (List.replicate s.queue.length WEv.tick)).log
        = s.log ++ analysisErrs analyze s.queue := by
  rw [workerRun_ticks_processes_queue analyze s.queue s hex rfl]
  exact ⟨rfl, rfl, rfl⟩

/-- Witness for C5: the spec's own scenario — artifacts 1..5 queued, the
analysis call fails on artifact 3; artifacts 4 and 5 are still processed,
the aggregate lists 1,2,4,5 and the log records the failure of 3. -/
theorem worker_exception_isolated_per_item_witness :
    ({ is_running := true, queue := [1, 2, 3, 4, 5], aggregate := [],
       log := [], exited := false, threads := 1 } : WorkerState).exited
        = false ∧
    (workerRun analyzeFail3
        { is_running := true, queue := [1, 2, 3, 4, 5], aggregate := [],
          log := [], exited := false, threads := 1 }
        (List.replicate 5 WEv.tick)).aggregate
      = [Nat.repr 1, Nat.repr 2, Nat.repr 4, Nat.repr 5] ∧
    (workerRun analyzeFail3
        { is_running := true, queue := [1, 2, 3, 4, 5], aggregate := [],
          log := [], exited := false, threads := 1 }
        (List.replicate 5 WEv.tick)).log
      = ["AnalysisError: artifact 3"] :=
  ⟨rfl, by
    have h := (worker_exception_isolated_per_item analyzeFail3
      { is_running := true, queue := [1, 2, 3, 4, 5], aggregate := [],
        log := [], exited := false, threads := 1 } rfl).2.1
    simpa [analysisOks, analyzeFail3] using h, by
    have h := (worker_exception_isolated_per_item analyzeFail3
      { is_running := true, queue := [1, 2, 3, 4, 5], aggregate := [],
        log := [], exited := false, threads := 1 } rfl).2.2
    simpa [analysisErrs, analyzeFail3] using h⟩

/-! ## Orchestrator startup order (`Assistant.start`, `src/main.py` 251-285)

`Assistant.setup` constructs `audio_transcriber`/`audio_recorder` iff audio
is enabled, `screen_analyzer`/`screen_capture` iff screen is enabled,
`keyboard_analyzer`/`keyboard_recorder` iff keyboard is enabled, and always
constructs the scheduler and the power monitor. `Assistant.start` then
starts each non-None module, guarded by `if self.<module>:`, in the fixed
textual order of lines 260-275. -/

/-- The components `Assistant.start` may start, named as in `main.py`. -/
inductive Component where
  | audioTranscriber
  | audioRecorder
  | screenAnalyzer
  | screenCapture
  | keyboardAnalyzer
  | keyboardRecorder
  | taskScheduler
  | powerMonitor
deriving DecidableEq, Repr

/-- The sequence of `start()` calls `Assistant.start` issues, as a function
of the three per-stream enabled flags (`src/main.py` lines 260-275 together
with the setup guards at lines 61-68 and 76-78). -/
def startSequence (audio screen kb : Bool) : List Component :=
  (if audio then [Component.audioTranscriber] else []) ++
  (if audio then [Component.audioRecorder] else []) ++
  (if screen then [Component.screenAnalyzer] else []) ++
  (if screen then [Component.screenCapture] else []) ++
  (if kb then [Component.keyboardAnalyzer] else []) ++
  (if kb then [Component.keyboardRecorder] else []) ++
  [Component.taskScheduler, Component.powerMonitor]

/-- C2: for every combination of enabled streams, each stream's Analysis
Worker is started strictly before that stream's Capture Producer, and the
Task Scheduler and the Power Monitor are started after every worker and
producer in the sequence. -/
theorem assistant_start_order (audio screen kb : Bool) :
    (audio = true →
      (startSequence audio screen kb).indexOf Component.audioTranscriber <
        (startSequence audio screen kb).indexOf Component.audioRecorder) ∧
    (screen = true →
      (startSequence audio screen kb).indexOf Component.screenAnalyzer <
        (startSequence audio screen kb).indexOf Component.screenCapture) ∧
    (kb = true →
      (startSequence audio screen kb).indexOf Component.keyboardAnalyzer <
        (startSequence audio screen kb).indexOf Component.keyboardRecorder) ∧
    (∀ c ∈ startSequence audio screen kb,
      c ≠ Component.taskScheduler → c ≠ Component.powerMonitor →
      (startSequence audio screen kb).indexOf c <
          (startSequence audio screen kb).indexOf Component.taskScheduler ∧
        (startSequence audio screen kb).indexOf c <
          (startSequence audio screen kb).indexOf Component.powerMonitor) := by
  cases audio <;> cases screen <;> cases kb <;> decide

/-- Witness for C2: with all three streams enabled, the transcriber precedes
the recorder, and the screen analyzer precedes the scheduler and the power
monitor. -/
theorem assistant_start_order_witness :
    ((startSequence true true true).indexOf Component.audioTranscriber <
      (startSequence true true true).indexOf Component.audioRecorder) ∧
    ((startSequence true true true).indexOf Component.screenAnalyzer <
      (startSequence true true true).indexOf Component.taskScheduler ∧
     (startSequence true true true).indexOf Component.screenAnalyzer <
      (startSequence true true true).indexOf Component.powerMonitor) :=
  ⟨(assistant_start_order true true true).1 rfl,
   (assistant_start_order true true true).2.2.2 Component.screenAnalyzer
     (by decide) (by decide) (by decide)⟩

/-! ## Power/Session Event Source (`src/system/power_monitor.py`)

`self._callbacks` is a Python dict from event-name strings to a *single*
callable; `register_callback` does `self._callbacks[event] = callback`
(line 49) and `_trigger` (lines 76-82) calls the one stored callable inside
a try/except that logs any exception. Callables are abstracted to numeric
identifiers together with a `throws` predicate saying which of them raise. -/

/-- Python-dict update semantics for `self._callbacks[event] = callback`:
replace in place if the key exists, else append. -/
def dictSet : List (String × Nat) → String → Nat → List (String × Nat)
  | [], k, v => [(k, v)]
  | (k', v') :: rest, k, v =>
    if k' = k then (k, v) :: rest else (k', v') :: dictSet rest k v

/-- Python-dict lookup semantics for `self._callbacks[event]`. -/
def dictGet : List (String × Nat) → String → Option Nat
  | [], _ => none
  | (k', v') :: rest, k => if k' = k then some v' else dictGet rest k

theorem dictGet_dictSet (m : List (String × Nat)) (k : String) (v : Nat) :
    dictGet (dictSet m k v) k = some v := by
  induction m with
  | nil => simp [dictSet, dictGet]
  | cons p rest ih =>
    by_cases h : p.1 = k <;> simp [dictSet, dictGet, h, ih]

/-- State of the `PowerMonitor`: its callback dict, the history of callback
invocations, the error log, and the lifecycle fields used by `start`/`stop`. -/
structure PMState where
  /-- `self._callbacks` -/
  callbacks : List (String × Nat)
  /-- callbacks invoked so far, in invocation order -/
  invoked : List Nat
  /-- error log entries -/
  log : List String
  /-- `self._is_running` -/
  is_running : Bool
  /-- `self._hwnd` is non-None -/
  hwnd : Bool
  /-- number of message-loop threads ever spawned -/
  threads : Nat
deriving DecidableEq, Repr

/-- `PowerMonitor.register_callback`: `self._callbacks[event] = callback`. -/
def register_callback (s : PMState) (event : String) (cb : Nat) : PMState :=
  { s with callbacks := dictSet s.callbacks event cb }

/-- `PowerMonitor._trigger`: if a callback is registered for the event, call
it; an exception from the callback is caught and logged, and `_trigger`
returns normally either way. -/
def pmTrigger (throws : Nat → Bool) (s : PMState) (event : String) :
    PMState :=
  match dictGet s.callbacks event with
  | none => s
  | some cb =>
    if throws cb then
      { s with invoked := s.invoked ++ [cb],
               log := s.log ++ ["Erro no callback " ++ event] }
    else { s with invoked := s.invoked ++ [cb] }

/-- A fresh `PowerMonitor` as built by `PowerMonitor.__init__`. -/
def pm0 : PMState :=
  { callbacks := [], invoked := [], log := [], is_running := false,
    hwnd := false, threads := 0 }

/-- C3 (counterexample): registering two listeners (7 then 8) for the same
event keeps only the second — the dict entry is overwritten — so when the
event fires only listener 8 is invoked and listener 7 never runs, refuting
"multiple listeners may be registered per event type … all registered
listeners for that event are invoked in registration order". -/
theorem power_monitor_second_listener_replaces_first :
    (pmTrigger (fun _ => false)
        (register_callback (register_callback pm0 "on_sleep" 7) "on_sleep" 8)
        "on_sleep").invoked = [8] ∧
    7 ∉ (pmTrigger (fun _ => false)
        (register_callback (register_callback pm0 "on_sleep" 7) "on_sleep" 8)
        "on_sleep").invoked := by
  constructor
  · rfl
  · decide

/-- C3 (amended): `register_callback` keeps at most one listener per event
type — a later registration for the same event replaces the earlier one.
When the event fires, exactly that last-registered listener is invoked,
and an exception it throws is caught and logged so the dispatcher returns
normally (the window procedure keeps running). -/
theorem power_monitor_single_listener_per_event
    (s : PMState) (event : String) (cb1 cb2 : Nat) (throws : Nat → Bool) :
    dictGet (register_callback (register_callback s event cb1) event cb2).callbacks
        event = some cb2 ∧
    (pmTrigger throws (register_callback (register_callback s event cb1) event cb2)
        event).invoked = s.invoked ++ [cb2] ∧
    (throws cb2 = true →
      (pmTrigger throws (register_callback (register_callback s event cb1) event cb2)
          event).log = s.log ++ ["Erro no callback " ++ event]) := by
  have hget :
      dictGet (dictSet (dictSet s.callbacks event cb1) event cb2) event
        = some cb2 :=
    dictGet_dictSet (dictSet s.callbacks event cb1) event cb2
  refine ⟨by simpa [register_callback] using hget, ?_, ?_⟩
  · cases hth : throws cb2 <;> simp [pmTrigger, register_callback, hget, hth]
  · intro hth
    simp [pmTrigger, register_callback, hget, hth]

/-- Witness for C3 (amended): registering 7 then a throwing 8 for
`"on_lock"` leaves 8 as the sole listener; firing the event invokes 8 and
logs the exception. -/
theorem power_monitor_single_listener_per_event_witness :
    dictGet (register_callback (register_callback pm0 "on_lock" 7) "on_lock" 8).callbacks
        "on_lock" = some 8 ∧
    (pmTrigger (fun n => n == 8)
        (register_callback (register_callback pm0 "on_lock" 7) "on_lock" 8)
        "on_lock").invoked = [8] ∧
    (pmTrigger (fun n => n == 8)
        (register_callback (register_callback pm0 "on_lock" 7) "on_lock" 8)
        "on_lock").log = ["Erro no callback on_lock"] := by
  have h := power_monitor_single_listener_per_event pm0 "on_lock" 7 8
    (fun n => n == 8)
  exact ⟨h.1, by simpa [pm0] using h.2.1, by simpa [pm0] using h.2.2 rfl⟩

/-! ## Task Scheduler daily triggers (`src/system/scheduler.py`)

`TaskScheduler.start` registers two daily jobs with the third-party
`schedule` library (`schedule.every().day.at(...)`) and `_run_scheduler`
polls `schedule.run_pending()` every second. The bookkeeping that makes a
daily-at job fire at most once per day lives inside that library, which is
not part of this repository's sources, so it is modelled from the spec. -/

/-- A poll instant: calendar day key and minute-of-day. -/
structure STime where
  day : Nat
  minute : Nat
deriving DecidableEq, Repr

/-- Modelled from the spec: the repository delegates daily-at firing to the
third-party `schedule` library (absent from src); spec §3 defines the
ScheduledTrigger record `{name, timeOfDay (HH:MM), lastFiredDayKey}` (the
name is irrelevant to firing and omitted). -/
structure ScheduledTrigger where
  timeOfDay : Nat
  lastFiredDay : Option Nat
deriving DecidableEq, Repr

/-- Modelled from the spec: one check of one trigger by the polling loop
(spec §4.5): «if current time ≥ timeOfDay AND today's dayKey ≠
trigger.lastFiredDayKey, fire the trigger's registered callback and set
lastFiredDayKey = today». Returns the updated trigger and whether it
fired. -/
def pollTick (t : ScheduledTrigger) (now : STime) : ScheduledTrigger × Bool :=
  if t.timeOfDay ≤ now.minute ∧ t.lastFiredDay ≠ some now.day then
    ({ t with lastFiredDay := some now.day }, true)
  else (t, false)

/-- Modelled from the spec: the polling loop of `_run_scheduler` checking a
trigger at each instant of `ticks` in order; returns the final trigger state
and the instants at which the callback fired. -/
def pollRun : ScheduledTrigger → List STime → ScheduledTrigger × List STime
  | t, [] => (t, [])
  | t, now :: rest =>
    let p := pollTick t now
    let r := pollRun p.1 rest
    (r.1, (if p.2 then [now] else []) ++ r.2)

/-- Once a trigger has fired on day `d`, further polls on day `d` never fire
it again and leave it unchanged. -/
theorem pollRun_no_refire_same_day (d : Nat) :
    ∀ (ms : List Nat) (t : ScheduledTrigger), t.lastFiredDay = some d →
      (pollRun t (ms.map (fun m => ⟨d, m⟩))).2 = [] ∧
      (pollRun t (ms.map (fun m => ⟨d, m⟩))).1 = t := by
  intro ms
  induction ms with
  | nil => intro t ht; simp [pollRun]
  | cons m ms ih =>
    intro t ht
    have hstep : pollTick t ⟨d, m⟩ = (t, false) := by
      simp [pollTick, ht]
    simp [pollRun, hstep, (ih t ht).1, (ih t ht).2]

/-- On a single day on which the trigger has not yet fired, the fired polls
are exactly the first poll at or after the trigger's time-of-day. -/
theorem pollRun_same_day_first_fire (d : Nat) :
    ∀ (ms : List Nat) (t : ScheduledTrigger), t.lastFiredDay ≠ some d →
      (pollRun t (ms.map (fun m => ⟨d, m⟩))).2 =
        ((ms.map (fun m => (⟨d, m⟩ : STime))).filter
          (fun w => decide (t.timeOfDay ≤ w.minute))).take 1 := by
  intro ms
  induction ms with
  | nil => intro t ht; simp [pollRun]
  | cons m ms ih =>
    intro t ht
    by_cases h : t.timeOfDay ≤ m
    · have hstep : pollTick t ⟨d, m⟩ =
          ({ t with lastFiredDay := some d }, true) := by
        simp [pollTick, h, ht]
      have hrest :=
        (pollRun_no_refire_same_day d ms { t with lastFiredDay := some d } rfl).1
      simp [pollRun, hstep, hrest, h]
    · have hstep : pollTick t ⟨d, m⟩ = (t, false) := by
        simp [pollTick, h]
      simp [pollRun, hstep, ih t ht, h]

/-- Across a chronologically ordered sequence of polls, the days on which a
trigger fires are strictly increasing; moreover, if the trigger last fired
on day `d`, every subsequent fire is on a strictly later day. -/
theorem pollRun_fired_days_strict_mono :
    ∀ (ticks : List STime) (t : ScheduledTrigger),
      (ticks.map STime.day).Pairwise (· ≤ ·) →
      (∀ d, t.lastFiredDay = some d → ∀ w ∈ ticks, d ≤ w.day) →
      ((pollRun t ticks).2.map STime.day).Pairwise (· < ·) ∧
      (∀ d, t.lastFiredDay = some d →
        ∀ w ∈ (pollRun t ticks).2, d < w.day) := by
  intro ticks
  induction ticks with
  | nil => intro t _ _; simp [pollRun]
  | cons now rest ih =>
    intro t hp hinit
    rw [List.map_cons, List.pairwise_cons] at hp
    obtain ⟨h1, h2⟩ := hp
    have h1' : ∀ w ∈ rest, now.day ≤ w.day := by
      intro w hw
      exact h1 w.day (List.mem_map_of_mem STime.day hw)
    by_cases hc : t.timeOfDay ≤ now.minute ∧ t.lastFiredDay ≠ some now.day
    · have hstep : pollTick t now =
          ({ t with lastFiredDay := some now.day }, true) := by
        simp [pollTick, hc.1, hc.2]
      have hinit' : ∀ d, ({ t with lastFiredDay := some now.day } :
          ScheduledTrigger).lastFiredDay = some d → ∀ w ∈ rest, d ≤ w.day := by
        intro d hd w hw
        have : d = now.day := by
          simpa using hd.symm
        exact this ▸ h1' w hw
      obtain ⟨ihP, ihD⟩ := ih { t with lastFiredDay := some now.day } h2 hinit'
      have hlt : ∀ w ∈ (pollRun { t with lastFiredDay := some now.day } rest).2,
          now.day < w.day := ihD now.day rfl
      constructor
      · simp only [pollRun, hstep, if_true, List.singleton_append,
          List.map_cons]
        rw [List.pairwise_cons]
        refine ⟨?_, ihP⟩
        intro b hb
        obtain ⟨w, hw, hwb⟩ := List.mem_map.mp hb
        exact hwb ▸ hlt w hw
      · intro d hd w hw
        have hdle : d ≤ now.day := hinit d hd now (List.mem_cons_self now rest)
        have hdne : d ≠ now.day := by
          intro he
          exact hc.2 (he ▸ hd)
        have hdnow : d < now.day := lt_of_le_of_ne hdle hdne
        simp only [pollRun, hstep] at hw
        rcases List.mem_cons.mp (by simpa using hw) with hnow | hrest'
        · exact hnow ▸ hdnow
        · exact lt_trans hdnow (hlt w hrest')
    · have hstep : pollTick t now = (t, false) := by
        simp only [pollTick]
        rw [if_neg hc]
      have hinit'' : ∀ d, t.lastFiredDay = some d → ∀ w ∈ rest, d ≤ w.day := by
        intro d hd w hw
        exact hinit d hd w (List.mem_cons_of_mem now hw)
      obtain ⟨ihP, ihD⟩ := ih t h2 hinit''
      constructor
      · simpa [pollRun, hstep] using ihP
      · intro d hd w hw
        simp only [pollRun, hstep] at hw
        exact ihD d hd w (by simpa using hw)

/-- C4: while the scheduler polls, a daily trigger fires at most once per
calendar day, and fires at the first poll at or after its time-of-day on a
day on which it has not yet fired — polling every second for the rest of
the day produces no further fire. Part one: over any chronologically
ordered poll sequence (consistent with the trigger's last-fired day), each
day key occurs at most once among the fires. Part two: on a single new day,
the fires are exactly the first poll at or after the time-of-day. -/
theorem scheduler_trigger_at_most_once_per_day :
    (∀ (t : ScheduledTrigger) (ticks : List STime),
      (ticks.map STime.day).Pairwise (· ≤ ·) →
      (∀ d, t.lastFiredDay = some d → ∀ w ∈ ticks, d ≤ w.day) →
      ∀ d, List.count d ((pollRun t ticks).2.map STime.day) ≤ 1) ∧
    (∀ (t : ScheduledTrigger) (d : Nat) (ms : List Nat),
      t.lastFiredDay ≠ some d →
      (pollRun t (ms.map (fun m => ⟨d, m⟩))).2 =
        ((ms.map (fun m => (⟨d, m⟩ : STime))).filter
          (fun w => decide (t.timeOfDay ≤ w.minute))).take 1) := by
  constructor
  · intro t ticks hp hinit d
    have hmono := (pollRun_fired_days_strict_mono ticks t hp hinit).1
    have hnd : ((pollRun t ticks).2.map STime.day).Nodup :=
      hmono.imp (fun h => Nat.ne_of_lt h)
    exact List.nodup_iff_count_le_one.mp hnd d
  · intro t d ms ht
    exact pollRun_same_day_first_fire d ms t ht

/-- Witness for C4: a trigger set for 08:00 (minute 480) that has not fired
on day 5 is polled at 07:58, 07:59, 08:00, 08:01, 08:02: it fires exactly
once, at the 08:00 poll, and the fired day keys contain day 5 once. -/
theorem scheduler_trigger_at_most_once_per_day_witness :
    (⟨480, none⟩ : ScheduledTrigger).lastFiredDay ≠ some 5 ∧
    (pollRun ⟨480, none⟩
        ([478, 479, 480, 481, 482].map (fun m => ⟨5, m⟩))).2 =
      [⟨5, 480⟩] ∧
    List.count 5
        ((pollRun ⟨480, none⟩
          ([478, 479, 480, 481, 482].map (fun m => ⟨5, m⟩))).2.map STime.day)
      ≤ 1 := by
  refine ⟨by decide, ?_, ?_⟩
  · rw [scheduler_trigger_at_most_once_per_day.2 ⟨480, none⟩ 5
      [478, 479, 480, 481, 482] (by decide)]
    rfl
  · exact scheduler_trigger_at_most_once_per_day.1 ⟨480, none⟩
      ([478, 479, 480, 481, 482].map (fun m => ⟨5, m⟩))
      (by decide) (by intro d hd; simp at hd) 5

/-! ## Screen Capture Producer (`src/screen/capture.py`)

`_capture_loop` (lines 87-109): each iteration checks
`self.is_paused or self._should_skip_capture()`; if set it sleeps and
continues, otherwise it grabs the screen, saves the file (which may fail,
returning None) and hands the path to `on_capture_ready`. One iteration is
one cadence tick; the privacy-deny-list outcome is the `skip` input and the
save outcome is the `saveOk` input. -/

/-- State of a `ScreenCapture` producer. `captured` is the list of artifact
paths handed to `on_capture_ready` (and hence enqueued for analysis). -/
structure SCState where
  /-- `self.is_running` -/
  is_running : Bool
  /-- `self.is_paused` -/
  is_paused : Bool
  /-- paths passed to `on_capture_ready`, oldest first -/
  captured : List Item
  /-- number of capture threads ever spawned -/
  threads : Nat
  /-- timeouts of the `join(timeout=...)` calls performed so far -/
  joins : List Nat
deriving DecidableEq, Repr

/-- One iteration of `ScreenCapture._capture_loop`. -/
def captureTick (s : SCState) (skip : Bool) (saveOk : Bool) (a : Item) :
    SCState :=
  if !s.is_running then s
  else if s.is_paused || skip then s
  else if saveOk then { s with captured := s.captured ++ [a] } else s

namespace ScreenCapture

/-- `ScreenCapture.start` (lines 133-145): no-op returning False when
already running, else clear the pause flag and spawn the capture thread. -/
def start (s : SCState) : SCState :=
  if s.is_running then s
  else { s with is_running := true, is_paused := false,
                threads := s.threads + 1 }

/-- `ScreenCapture.stop` (lines 147-156): no-op when not running, else
clear the flag and join the capture thread with a 10-second timeout. -/
def stop (s : SCState) : SCState :=
  if !s.is_running then s
  else { s with is_running := false, joins := s.joins ++ [10] }

/-- `ScreenCapture.pause`. -/
def pause (s : SCState) : SCState := { s with is_paused := true }

/-- `ScreenCapture.resume`. -/
def resume (s : SCState) : SCState := { s with is_paused := false }

end ScreenCapture

/-! ## Keyboard Recorder Producer (`src/keyboard/recorder.py`) -/

/-- A key press as seen by `KeyboardRecorder._on_press`. -/
inductive Key where
  | charKey (c : String)
  | space
  | enter
  | tab
  | backspace
  | special (name : String)
deriving DecidableEq, Repr

/-- The text appended to the buffer for one key (`_on_press` lines 42-59). -/
def keyChar : Key → String
  | Key.charKey c => c
  | Key.space => " "
  | Key.enter => "\n"
  | Key.tab => "\t"
  | Key.backspace => "[BKSP]"
  | Key.special n => "[" ++ n ++ "]"

/-- State of a `KeyboardRecorder`. -/
structure KRState where
  /-- `self.running` -/
  running : Bool
  /-- `self.paused` -/
  paused : Bool
  /-- `self.listener` is non-None -/
  listener : Bool
  /-- `self.current_buffer` -/
  buffer : List String
  /-- entries appended so far to the day's `keylog.txt` -/
  keylog : List String
  /-- number of `on_log_ready` invocations so far -/
  notified : Nat
  /-- number of save-loop threads ever spawned -/
  threads : Nat
  /-- timeouts of the `join(timeout=...)` calls performed so far -/
  joins : List Nat
deriving DecidableEq, Repr

namespace KeyboardRecorder

/-- `KeyboardRecorder._on_press` (lines 37-63): return immediately while
paused, otherwise append the key's text to the buffer. -/
def on_press (s : KRState) (k : Key) : KRState :=
  if s.paused then s else { s with buffer := s.buffer ++ [keyChar k] }

/-- `KeyboardRecorder.save_buffer` (lines 74-104): under the lock, return at
once if the buffer is empty; otherwise take and clear the buffer, append a
timestamped entry to the day's `keylog.txt`, and invoke `on_log_ready`. -/
def save_buffer (ts : String) (s : KRState) : KRState :=
  if s.buffer.isEmpty then s
  else
    { s with buffer := [],
             keylog := s.keylog ++
               ["\n--- [" ++ ts ++ "] ---\n" ++ String.join s.buffer ++ "\n"],
             notified := s.notified + 1 }

/-- One post-sleep iteration of `KeyboardRecorder._save_loop` (lines 67-72):
nothing once the loop has exited; while paused, skip the save. -/
def saveTick (ts : String) (s : KRState) : KRState :=
  if !s.running then s
  else if s.paused then s
  else save_buffer ts s

/-- `KeyboardRecorder.start` (lines 106-122): no-op when already running,
else clear the pause flag, start the listener and spawn the save-loop
thread. -/
def start (s : KRState) : KRState :=
  if s.running then s
  else { s with running := true, paused := false, listener := true,
                threads := s.threads + 1 }

/-- `KeyboardRecorder.stop` (lines 124-133): clear `running`, stop and drop
the listener, then synchronously flush the buffer via `save_buffer`. Note:
the save-loop thread is *not* joined. -/
def stop (ts : String) (s : KRState) : KRState :=
  save_buffer ts { s with running := false, listener := false }

/-- `KeyboardRecorder.pause`. -/
def pause (s : KRState) : KRState := { s with paused := true }

/-- `KeyboardRecorder.resume`. -/
def resume (s : KRState) : KRState := { s with paused := false }

end KeyboardRecorder

/-! ## Task Scheduler and Power Monitor lifecycle -/

/-- State of a `TaskScheduler` together with the global `schedule` registry
(`src/system/scheduler.py`). -/
structure SchedState where
  /-- `self._is_running` -/
  is_running : Bool
  /-- the jobs currently registered with the `schedule` library -/
  jobs : List ScheduledTrigger
  /-- number of polling threads ever spawned -/
  threads : Nat
deriving DecidableEq, Repr

namespace TaskScheduler

/-- `TaskScheduler.start` (lines 64-79): no-op when already running, else
register the daily summary job at the configured time and the cleanup job
at 00:30 (minute 30), and spawn the polling thread. -/
def start (summaryTime : Nat) (s : SchedState) : SchedState :=
  if s.is_running then s
  else { s with is_running := true,
                jobs := s.jobs ++ [⟨summaryTime, none⟩, ⟨30, none⟩],
                threads := s.threads + 1 }

/-- `TaskScheduler.stop` (lines 81-87): clear the flag and
`schedule.clear()` the registry. -/
def stop (s : SchedState) : SchedState :=
  { s with is_running := false, jobs := [] }

end TaskScheduler

namespace PowerMonitor

/-- `PowerMonitor.start` (lines 116-123): no-op when already running, else
spawn the message-loop thread. -/
def start (s : PMState) : PMState :=
  if s.is_running then s
  else { s with is_running := true, threads := s.threads + 1 }

/-- `PowerMonitor.stop` (lines 125-134): clear the flag and, when a window
handle exists, unregister and destroy it. -/
def stop (s : PMState) : PMState :=
  if s.hwnd then { s with is_running := false, hwnd := false }
  else { s with is_running := false }

end PowerMonitor

/-! ## Keyboard Analyzer (`src/keyboard/analyzer.py`) -/

/-- State of a `KeyboardAnalyzer` worker; `apiCalls` records the items for
which the external analysis service (`generate_summary`) was invoked. -/
structure KAState where
  /-- `self._is_running` -/
  is_running : Bool
  /-- `self._queue`, FIFO front first -/
  queue : List Item
  /-- lines appended so far to the day's `analise_teclado.txt` -/
  aggregate : List String
  /-- items for which `generate_summary` was called -/
  apiCalls : List Item
  /-- error log entries -/
  log : List String
  /-- the worker thread has left the loop -/
  exited : Bool
deriving DecidableEq, Repr

/-- One iteration of `KeyboardAnalyzer._worker` (lines 37-66): dequeue a log
path, read its content; if `content.strip()` is falsy (every character
whitespace, including the empty file) mark the task done and continue
without calling the service; otherwise call `generate_summary` and append
the result, an exception being logged and the item dropped. -/
def kaTick (content : Item → List Char)
    (summarize : Item → Except String String) (s : KAState) : KAState :=
  if s.exited then s
  else if s.is_running || !s.queue.isEmpty then
    match s.queue with
    | [] => s
    | x :: xs =>
      if (content x).all Char.isWhitespace then { s with queue := xs }
      else
        match summarize x with
        | Except.ok r =>
          { s with queue := xs, apiCalls := s.apiCalls ++ [x],
                   aggregate := s.aggregate ++ [r] }
        | Except.error e =>
          { s with queue := xs, apiCalls := s.apiCalls ++ [x],
                   log := s.log ++ [e] }
  else { s with exited := true }

/-- C6: while a producer is paused its cadence loop does nothing — a paused
`ScreenCapture` tick grabs, saves, and enqueues nothing; a paused
`KeyboardRecorder` records no keystroke via `_on_press` and its periodic
save tick produces no log entry — and after `resume()` the next cadence
tick captures normally, producing exactly one artifact (every tick yields
at most one artifact, so missed ticks are never bursted). -/
theorem paused_producer_captures_nothing :
    (∀ (s : SCState) (skip saveOk : Bool) (a : Item),
      s.is_paused = true → captureTick s skip saveOk a = s) ∧
    (∀ (s : SCState) (a : Item), s.is_running = true →
      captureTick (ScreenCapture.resume s) false true a =
        { ScreenCapture.resume s with captured := s.captured ++ [a] }) ∧
    (∀ (s : SCState) (skip saveOk : Bool) (a : Item),
      (captureTick s skip saveOk a).captured.length ≤
        s.captured.length + 1) ∧
    (∀ (s : KRState) (k : Key), s.paused = true →
      KeyboardRecorder.on_press s k = s) ∧
    (∀ (s : KRState) (ts : String), s.paused = true →
      KeyboardRecorder.saveTick ts s = s) := by
  refine ⟨?_, ?_, ?_, ?_, ?_⟩
  · intro s skip saveOk a h
    cases hr : s.is_running <;> simp [captureTick, h, hr]
  · intro s a h
    simp [captureTick, ScreenCapture.resume, h]
  · intro s skip saveOk a
    cases hr : s.is_running <;> cases hp : s.is_paused <;>
      cases skip <;> cases saveOk <;>
      simp [captureTick, hr, hp]
  · intro s k h
    simp [KeyboardRecorder.on_press, h]
  · intro s ts h
    cases hr : s.running <;> simp [KeyboardRecorder.saveTick, h, hr]

/-- Witness for C6: a concrete running, paused capture producer ticks to
itself; after `resume()` the next tick appends exactly one artifact; a
paused recorder ignores a key press and its save tick. -/
theorem paused_producer_captures_nothing_witness :
    captureTick
        { is_running := true, is_paused := true, captured := [],
          threads := 1, joins := [] } false true 9 =
      { is_running := true, is_paused := true, captured := [],
        threads := 1, joins := [] } ∧
    captureTick
        (ScreenCapture.resume
          { is_running := true, is_paused := true, captured := [],
            threads := 1, joins := [] }) false true 9 =
      { is_running := true, is_paused := false, captured := [9],
        threads := 1, joins := [] } ∧
    KeyboardRecorder.on_press
        { running := true, paused := true, listener := true, buffer := [],
          keylog := [], notified := 0, threads := 1, joins := [] }
        Key.space =
      { running := true, paused := true, listener := true, buffer := [],
        keylog := [], notified := 0, threads := 1, joins := [] } :=
  ⟨paused_producer_captures_nothing.1
      { is_running := true, is_paused := true, captured := [],
        threads := 1, joins := [] } false true 9 rfl,
   by
    have h := paused_producer_captures_nothing.2.1
      { is_running := true, is_paused := true, captured := [],
        threads := 1, joins := [] } 9 rfl
    simpa [ScreenCapture.resume] using h,
   paused_producer_captures_nothing.2.2.2.1
      { running := true, paused := true, listener := true, buffer := [],
        keylog := [], notified := 0, threads := 1, joins := [] }
      Key.space rfl⟩

/-- A running keyboard recorder with one buffered keystroke. -/
def kr1 : KRState :=
  { running := true, paused := false, listener := true, buffer := ["a"],
    keylog := [], notified := 0, threads := 1, joins := [] }

/-- C7 (counterexample): `KeyboardRecorder.stop` performs no join/wait of
its save-loop cadence thread at all — on a running recorder the list of
joins performed by `stop()` stays empty — refuting "stop() … joins/waits
for the cadence loop to exit with a bounded timeout" for every Capture
Producer. (The thread is a daemon left to exit on its own.) -/
theorem keyboard_stop_performs_no_join :
    kr1.running = true ∧
    (KeyboardRecorder.stop "12:00:00" kr1).joins = [] := by
  exact ⟨rfl, rfl⟩

/-- C7 (amended): `stop()` on either producer clears the running flag
before returning; `ScreenCapture.stop` additionally joins its capture loop
with a 10-second timeout, while `KeyboardRecorder.stop` performs no join
of its save loop but does synchronously flush the accumulated keystroke
buffer — a non-empty buffer is written to the day's keylog and handed to
`on_log_ready` — before `stop()` returns. -/
theorem producer_stop_flushes_before_return
    (ts : String) (s : KRState) (sc : SCState) (hsc : sc.is_running = true) :
    (KeyboardRecorder.stop ts s).running = false ∧
    (KeyboardRecorder.stop ts s).buffer = [] ∧
    (s.buffer ≠ [] →
      (KeyboardRecorder.stop ts s).keylog =
          s.keylog ++
            ["\n--- [" ++ ts ++ "] ---\n" ++ String.join s.buffer ++ "\n"] ∧
      (KeyboardRecorder.stop ts s).notified = s.notified + 1) ∧
    (KeyboardRecorder.stop ts s).joins = s.joins ∧
    (ScreenCapture.stop sc).is_running = false ∧
    (ScreenCapture.stop sc).joins = sc.joins ++ [10] := by
  have hb : s.buffer.isEmpty = true ∨ s.buffer.isEmpty = false := by
    cases s.buffer.isEmpty
    · exact Or.inr rfl
    · exact Or.inl rfl
  refine ⟨?_, ?_, ?_, ?_, ?_, ?_⟩
  · rcases hb with h | h <;>
      simp [KeyboardRecorder.stop, KeyboardRecorder.save_buffer, h]
  · rcases hb with h | h <;>
      simp_all [KeyboardRecorder.stop, KeyboardRecorder.save_buffer,
        List.isEmpty_iff]
  · intro hne
    have h : s.buffer.isEmpty = false := by
      simp [List.isEmpty_iff, hne]
    simp [KeyboardRecorder.stop, KeyboardRecorder.save_buffer, h]
  · rcases hb with h | h <;>
      simp [KeyboardRecorder.stop, KeyboardRecorder.save_buffer, h]
  · simp [ScreenCapture.stop, hsc]
  · simp [ScreenCapture.stop, hsc]

/-- Witness for C7 (amended): stopping `kr1` (one buffered keystroke)
flushes the buffer into a keylog entry and notifies once, with no join;
stopping a running screen capture joins with timeout 10. -/
theorem producer_stop_flushes_before_return_witness :
    ({ is_running := true, is_paused := false, captured := [],
       threads := 1, joins := [] } : SCState).is_running = true ∧
    (KeyboardRecorder.stop "12:00:00" kr1).keylog =
        ["\n--- [12:00:00] ---\na\n"] ∧
    (KeyboardRecorder.stop "12:00:00" kr1).notified = 1 ∧
    (ScreenCapture.stop
        { is_running := true, is_paused := false, captured := [],
          threads := 1, joins := [] }).joins = [10] := by
  have h := producer_stop_flushes_before_return "12:00:00" kr1
    { is_running := true, is_paused := false, captured := [],
      threads := 1, joins := [] } rfl
  refine ⟨rfl, ?_, ?_, ?_⟩
  · have := (h.2.2.1 (by simp [kr1])).1
    simpa [kr1, String.join] using this
  · have := (h.2.2.1 (by simp [kr1])).2
    simpa [kr1] using this
  · simpa using h.2.2.2.2.2

/-- C8: for every component — Analysis Workers, Capture Producers, Task
Scheduler and Power Monitor — `start()` while already running is a no-op
(in particular it spawns no duplicate loop thread: after a double start
from stopped, exactly one new thread exists), and `stop()` while already
stopped (in the state a previous stop leaves behind) is a no-op. -/
theorem start_stop_idempotent :
    (∀ s : WorkerState, s.is_running = true → workerStart s = s) ∧
    (∀ s : WorkerState, s.is_running = false → workerStop s = s) ∧
    (∀ s : WorkerState, s.is_running = false →
      (workerStart (workerStart s)).threads = s.threads + 1) ∧
    (∀ s : SCState, s.is_running = true → ScreenCapture.start s = s) ∧
    (∀ s : SCState, s.is_running = false → ScreenCapture.stop s = s) ∧
    (∀ s : SCState, s.is_running = false →
      (ScreenCapture.start (ScreenCapture.start s)).threads =
        s.threads + 1) ∧
    (∀ s : KRState, s.running = true → KeyboardRecorder.start s = s) ∧
    (∀ (ts : String) (s : KRState), s.running = false → s.listener = false →
      s.buffer = [] → KeyboardRecorder.stop ts s = s) ∧
    (∀ (st : Nat) (s : SchedState), s.is_running = true →
      TaskScheduler.start st s = s) ∧
    (∀ s : SchedState, s.is_running = false → s.jobs = [] →
      TaskScheduler.stop s = s) ∧
    (∀ s : PMState, s.is_running = true → PowerMonitor.start s = s) ∧
    (∀ s : PMState, s.is_running = false → s.hwnd = false →
      PowerMonitor.stop s = s) := by
  refine ⟨?_, ?_, ?_, ?_, ?_, ?_, ?_, ?_, ?_, ?_, ?_, ?_⟩
  · intro s h; simp [workerStart, h]
  · intro s h; cases s; simp_all [workerStop]
  · intro s h; simp [workerStart, h]
  · intro s h; simp [ScreenCapture.start, h]
  · intro s h; simp [ScreenCapture.stop, h]
  · intro s h; simp [ScreenCapture.start, h]
  · intro s h; simp [KeyboardRecorder.start, h]
  · intro ts s h hl hb
    cases s
    simp_all [KeyboardRecorder.stop, KeyboardRecorder.save_buffer]
  · intro st s h; simp [TaskScheduler.start, h]
  · intro s h hj; cases s; simp_all [TaskScheduler.stop]
  · intro s h; simp [PowerMonitor.start, h]
  · intro s h hw; cases s; simp_all [PowerMonitor.stop]

/-- Witness for C8: concrete running states are fixed by `start`, concrete
stopped states by `stop`, and a double start from stopped spawns exactly
one thread. -/
theorem start_stop_idempotent_witness :
    workerStart
        { is_running := true, queue := [], aggregate := [], log := [],
          exited := false, threads := 1 } =
      { is_running := true, queue := [], aggregate := [], log := [],
        exited := false, threads := 1 } ∧
    (workerStart (workerStart
        { is_running := false, queue := [], aggregate := [], log := [],
          exited := true, threads := 0 })).threads = 1 ∧
    ScreenCapture.stop
        { is_running := false, is_paused := false, captured := [],
          threads := 1, joins := [10] } =
      { is_running := false, is_paused := false, captured := [],
        threads := 1, joins := [10] } ∧
    KeyboardRecorder.stop "09:00:00"
        { running := false, paused := false, listener := false, buffer := [],
          keylog := ["x"], notified := 1, threads := 1, joins := [] } =
      { running := false, paused := false, listener := false, buffer := [],
        keylog := ["x"], notified := 1, threads := 1, joins := [] } ∧
    TaskScheduler.stop { is_running := false, jobs := [], threads := 1 } =
      { is_running := false, jobs := [], threads := 1 } ∧
    PowerMonitor.start
        { callbacks := [], invoked := [], log := [], is_running := true,
          hwnd := true, threads := 1 } =
      { callbacks := [], invoked := [], log := [], is_running := true,
        hwnd := true, threads := 1 } :=
  ⟨start_stop_idempotent.1 _ rfl,
   start_stop_idempotent.2.2.1 _ rfl,
   start_stop_idempotent.2.2.2.2.1 _ rfl,
   start_stop_idempotent.2.2.2.2.2.2.2.1 "09:00:00" _ rfl rfl rfl,
   start_stop_idempotent.2.2.2.2.2.2.2.2.2.1 _ rfl rfl,
   start_stop_idempotent.2.2.2.2.2.2.2.2.2.2.1 _ rfl⟩

/-- C9: `save_buffer` on an empty keystroke buffer is a complete no-op —
nothing is written to the day's keylog file and `on_log_ready` is not
invoked — and consequently the flush performed by `stop()` on an empty
buffer writes nothing and enqueues no artifact for analysis. -/
theorem empty_buffer_flush_writes_nothing (ts : String) (s : KRState)
    (h : s.buffer = []) :
    KeyboardRecorder.save_buffer ts s = s ∧
    (KeyboardRecorder.stop ts s).keylog = s.keylog ∧
    (KeyboardRecorder.stop ts s).notified = s.notified := by
  refine ⟨?_, ?_, ?_⟩ <;>
    simp [KeyboardRecorder.save_buffer, KeyboardRecorder.stop, h]

/-- Witness for C9: stopping a recorder whose buffer is empty leaves the
keylog and the notification count untouched. -/
theorem empty_buffer_flush_writes_nothing_witness :
    ({ running := true, paused := false, listener := true, buffer := [],
       keylog := ["old"], notified := 3, threads := 1, joins := [] } :
        KRState).buffer = [] ∧
    (KeyboardRecorder.stop "23:59:59"
        { running := true, paused := false, listener := true, buffer := [],
          keylog := ["old"], notified := 3, threads := 1,
          joins := [] }).keylog = ["old"] ∧
    (KeyboardRecorder.stop "23:59:59"
        { running := true, paused := false, listener := true, buffer := [],
          keylog := ["old"], notified := 3, threads := 1,
          joins := [] }).notified = 3 :=
  ⟨rfl,
   (empty_buffer_flush_writes_nothing "23:59:59"
      { running := true, paused := false, listener := true, buffer := [],
        keylog := ["old"], notified := 3, threads := 1, joins := [] }
      rfl).2.1,
   (empty_buffer_flush_writes_nothing "23:59:59"
      { running := true, paused := false, listener := true, buffer := [],
        keylog := ["old"], notified := 3, threads := 1, joins := [] }
      rfl).2.2⟩

/-- C10: when the file content of the dequeued keyboard log is empty or
whitespace-only (`content.strip()` falsy), the analyzer consumes the item
without calling `generate_summary` and without appending anything to the
day's analysis file, and the worker loop goes on with the next item: the
state changes only by dropping the head of the queue. -/
theorem keyboard_analyzer_skips_blank_log
    (content : Item → List Char) (summarize : Item → Except String String)
    (s : KAState) (x : Item) (xs : List Item)
    (hex : s.exited = false) (hq : s.queue = x :: xs)
    (hw : (content x).all Char.isWhitespace = true) :
    kaTick content summarize s = { s with queue := xs } := by
  simp [kaTick, hex, hq, hw]

/-- Witness for C10: a log containing only a space and a newline is consumed
with no service call and no appended analysis; the next queued item remains
to be processed. -/
theorem keyboard_analyzer_skips_blank_log_witness :
    ((fun _ => [' ', '\n'] : Item → List Char) 1).all Char.isWhitespace
        = true ∧
    kaTick (fun _ => [' ', '\n']) (fun x => Except.ok (Nat.repr x))
        { is_running := true, queue := [1, 2], aggregate := [],
          apiCalls := [], log := [], exited := false } =
      { is_running := true, queue := [2], aggregate := [], apiCalls := [],
        log := [], exited := false } :=
  ⟨by decide,
   keyboard_analyzer_skips_blank_log (fun _ => [' ', '\n'])
     (fun x => Except.ok (Nat.repr x))
     { is_running := true, queue := [1, 2], aggregate := [], apiCalls := [],
       log := [], exited := false } 1 [2] rfl rfl (by decide)⟩

end Guardian
